import Mathlib

/-!
Shallow embedding of `src/agent.py` (repository CustomerService).

The embedded pieces are:
* `recommend_phone` (lines 23-60): the dataset filter over the phones table,
  the price sort, the head-3 truncation, and the message / recommendations
  result variants;
* the tool dispatch part of `main` (lines 138-190): quit handling, the
  first-response failure check, scanning of response output items, local
  invocation of `recommend_phone`, the optional single resubmission, and the
  final display.

Numeric modelling: Python floats appearing here (prices, budget, screen
sizes) are only ever compared, never combined arithmetically, so they are
modelled as rationals; Python ints as integers.  The pandas calls used by the
code (`df[mask]`, `Series.str.lower`, `Series.str.contains`, `sort_values`,
`head`) are modelled by their documented semantics on a list of rows.
-/

/-- One row of phones.csv with the columns the code reads:
Name, Brand, Price, Storage, ScreenSize. -/
structure PhoneRecord where
  name : String
  brand : String
  price : ℚ
  storage : ℤ
  screenSize : ℚ
deriving DecidableEq, Repr

/-- Python str.lower / pandas Series.str.lower, character by character
(the brands involved are ASCII, where Char.toLower agrees with Python). -/
def lowerStr (s : String) : String :=
  ⟨s.data.map Char.toLower⟩

/-- Tokens of the fragment of Python regular expressions this development
models: literal characters and the metacharacter . (match any character).
The code passes the user-supplied brand string to pandas
Series.str.contains, whose default is regex=True, i.e. re.search semantics;
all theorems below stay inside this fragment. -/
inductive RTok where
  | lit : Char → RTok
  | dot : RTok
deriving DecidableEq, Repr

/-- Compile a pattern string into tokens: . becomes the any-character token,
every other character a literal.  Faithful to re.search only for patterns
whose metacharacters are at most . — which is all the theorems below use. -/
def compilePat (pat : String) : List RTok :=
  pat.data.map (fun c => if c = '.' then RTok.dot else RTok.lit c)

/-- Does the token list match a prefix of the character list? -/
def matchToks : List RTok → List Char → Bool
  | [], _ => true
  | _ :: _, [] => false
  | t :: ts, c :: cs =>
    (match t with
     | RTok.lit a => a = c
     | RTok.dot => true) && matchToks ts cs

/-- re.search: does the token list match starting at some position? -/
def reSearch (toks : List RTok) : List Char → Bool
  | [] => matchToks toks []
  | c :: cs => matchToks toks (c :: cs) || reSearch toks cs

/-- pandas Series.str.contains applied to one element: re.search of the
(compiled) pattern in the element, Bool-valued. -/
def pandasContains (element pat : String) : Bool :=
  reSearch (compilePat pat) element.data

/-- Plain substring test: does pat occur verbatim starting here? -/
def substrAt : List Char → List Char → Bool
  | [], _ => true
  | _ :: _, [] => false
  | a :: as, b :: bs => a = b && substrAt as bs

/-- Plain substring containment: does pat occur verbatim anywhere in s?
This is the spec side of the brand condition (case-insensitive substring
match, after both sides are lowercased by the caller). -/
def containsSub (pat : List Char) : List Char → Bool
  | [] => substrAt pat []
  | c :: cs => substrAt pat (c :: cs) || containsSub pat cs

/-- The characters that are metacharacters of Python regular expressions.
Patterns avoiding all of them are matched by re.search exactly as literal
substrings. -/
def regexMetachars : List Char :=
  ['.', '^', '$', '*', '+', '?', '\x7b', '\x7d', '[', ']', '(', ')', '|', '\\']

/-- The filter chain of recommend_phone, lines 36-47:
price ≤ budget; then, when brand is non-empty (Python truthiness of the
string), lowercased Brand column contains the lowercased brand pattern
(pandas str.contains, regex semantics); then the storage and screen-size
lower bounds, each only when the argument is positive. -/
def applyFilters (df : List PhoneRecord) (budget : ℚ) (brand : String)
    (min_storage : ℤ) (min_screen_size : ℚ) : List PhoneRecord :=
  let f1 := df.filter (fun r => decide (r.price ≤ budget))
  let f2 := if brand = "" then f1
    else f1.filter (fun r => pandasContains (lowerStr r.brand) (lowerStr brand))
  let f3 := if 0 < min_storage then
    f2.filter (fun r => decide (min_storage ≤ r.storage)) else f2
  let f4 := if 0 < min_screen_size then
    f3.filter (fun r => decide (min_screen_size ≤ r.screenSize)) else f3
  f4

/-- The record predicate actually enforced by the filter chain (code side:
brand condition via pandas regex containment). -/
def codeKeep (budget : ℚ) (brand : String) (min_storage : ℤ)
    (min_screen_size : ℚ) (r : PhoneRecord) : Bool :=
  decide (r.price ≤ budget) &&
  (if brand = "" then true
   else pandasContains (lowerStr r.brand) (lowerStr brand)) &&
  (if 0 < min_storage then decide (min_storage ≤ r.storage) else true) &&
  (if 0 < min_screen_size then decide (min_screen_size ≤ r.screenSize) else true)

/-- The record predicate in the words of the spec: same conjunction, but the
brand condition is case-insensitive substring containment. -/
def specKeep (budget : ℚ) (brand : String) (min_storage : ℤ)
    (min_screen_size : ℚ) (r : PhoneRecord) : Bool :=
  decide (r.price ≤ budget) &&
  (if brand = "" then true
   else containsSub (lowerStr brand).data (lowerStr r.brand).data) &&
  (if 0 < min_storage then decide (min_storage ≤ r.storage) else true) &&
  (if 0 < min_screen_size then decide (min_screen_size ≤ r.screenSize) else true)

/-- Comparison by the Price column, the sort key of line 55. -/
def priceLe (a b : PhoneRecord) : Prop := a.price ≤ b.price

instance : DecidableRel priceLe :=
  fun a b => inferInstanceAs (Decidable (a.price ≤ b.price))

instance : IsTotal PhoneRecord priceLe := ⟨fun a b => le_total a.price b.price⟩

instance : IsTrans PhoneRecord priceLe := ⟨fun _ _ _ h h' => le_trans h h'⟩

/-- Contract of pandas sort_values(by="Price") with the default
kind="quicksort" (line 55): the output is a permutation of the input that is
non-decreasing in Price.  pandas documents only kind="mergesort" and
kind="stable" as stable, so nothing beyond this contract (in particular no
tie order) is guaranteed; theorems about the sort quantify over every
function satisfying it. -/
def SortsByPrice (s : List PhoneRecord → List PhoneRecord) : Prop :=
  ∀ l, List.Perm (s l) l ∧ List.Sorted priceLe (s l)

/-- One concrete behaviour allowed by the sort_values contract: a stable
insertion sort. -/
def sortStable : List PhoneRecord → List PhoneRecord :=
  List.insertionSort priceLe

/-- Another concrete behaviour allowed by the sort_values contract: reverse,
then insertion sort, which flips the relative order of equal-price rows. -/
def sortUnstable : List PhoneRecord → List PhoneRecord :=
  fun l => List.insertionSort priceLe l.reverse

/-- The two result shapes of recommend_phone: the json.dumps payload of
line 50 (message) or of line 60 (recommendations). -/
inductive RecommendationResult where
  | message : String → RecommendationResult
  | recommendations : List PhoneRecord → RecommendationResult
deriving DecidableEq, Repr

/-- recommend_phone, lines 36-60, over the loaded table: filter, empty
check, sort by price (any behaviour sortFn of sort_values), take the first
3 rows.  The df argument is the contents of phones.csv, which line 33 reads
on every call. -/
def recommend_phone (sortFn : List PhoneRecord → List PhoneRecord)
    (df : List PhoneRecord) (budget : ℚ) (brand : String)
    (min_storage : ℤ) (min_screen_size : ℚ) : RecommendationResult :=
  let filtered := applyFilters df budget brand min_storage min_screen_size
  if filtered.isEmpty then
    RecommendationResult.message
      "No phones found matching your criteria. Try adjusting filters."
  else
    RecommendationResult.recommendations ((sortFn filtered).take 3)

/-- The exact message of line 51. -/
def noMatchMessage : String :=
  "No phones found matching your criteria. Try adjusting filters."

/-!
Tool dispatch loop (main, lines 138-190).

One user turn is straight-line code: send the user text, check the first
response for status "failed", scan its output items, invoke
recommend_phone for each function_call item of that name, resubmit the
collected outputs at most once, print.  A Python exception raised during
the turn is caught nowhere in main, so it terminates the process; the
embedding returns it as an Except.error escaping the turn.
-/

/-- The arguments string of a function-call item, abstracted to the
outcomes of json.loads at line 169: either undecodable (json.loads raises
JSONDecodeError), or a keyword dictionary for recommend_phone whose budget
field is a JSON number or a JSON string. -/
inductive ArgsJson where
  | invalid : ArgsJson
  | numArgs : ℚ → String → ℤ → ℚ → ArgsJson
  | strArgs : String → String → ℤ → ℚ → ArgsJson
deriving DecidableEq, Repr

/-- Python exceptions the modelled turn can raise: JSONDecodeError from
json.loads (line 169), or the TypeError pandas raises at line 36 when
comparing the Price column with a string budget. -/
inductive PyExn where
  | jsonDecodeError : PyExn
  | typeError : PyExn
deriving DecidableEq, Repr

/-- Line 169: json.loads the arguments and call recommend_phone with them.
Neither a decode failure nor the pandas TypeError is handled anywhere, so
both escape as errors; no default budget is ever substituted. -/
def invokeRecommendPhone (sortFn : List PhoneRecord → List PhoneRecord)
    (df : List PhoneRecord) : ArgsJson → Except PyExn RecommendationResult
  | ArgsJson.invalid => Except.error PyExn.jsonDecodeError
  | ArgsJson.numArgs b br ms mss =>
      Except.ok (recommend_phone sortFn df b br ms mss)
  | ArgsJson.strArgs _ _ _ _ => Except.error PyExn.typeError

/-- An output item of a remote response: a function-call request (type
"function_call" with name, arguments and call_id), or any item of another
type, which lines 166-167 leave untouched. -/
inductive OutputItem where
  | other : String → String → OutputItem
  | function_call : String → ArgsJson → String → OutputItem
deriving DecidableEq, Repr

/-- The function_call_output record built at lines 171-177: the originating
call_id together with the (serialized) result of recommend_phone. -/
structure FunctionCallOutput where
  call_id : String
  output : RecommendationResult
deriving DecidableEq, Repr

/-- Lines 166-177 for one item: only items of type function_call whose name
is recommend_phone are dispatched; everything else produces nothing. -/
def dispatchItem (sortFn : List PhoneRecord → List PhoneRecord)
    (df : List PhoneRecord) : OutputItem → Except PyExn (Option FunctionCallOutput)
  | OutputItem.other _ _ => Except.ok none
  | OutputItem.function_call nm args cid =>
    if nm = "recommend_phone" then
      match invokeRecommendPhone sortFn df args with
      | Except.error e => Except.error e
      | Except.ok res => Except.ok (some ⟨cid, res⟩)
    else Except.ok none

/-- The item loop of lines 164-177, collecting the produced output records
in order; an exception at any item aborts the turn. -/
def dispatchItems (sortFn : List PhoneRecord → List PhoneRecord)
    (df : List PhoneRecord) : List OutputItem → Except PyExn (List FunctionCallOutput)
  | [] => Except.ok []
  | it :: rest =>
    match dispatchItem sortFn df it with
    | Except.error e => Except.error e
    | Except.ok none => dispatchItems sortFn df rest
    | Except.ok (some o) =>
      match dispatchItems sortFn df rest with
      | Except.error e => Except.error e
      | Except.ok os => Except.ok (o :: os)

/-- The function-call requests among a list of items that are addressed to
recommend_phone: their arguments and call_id, in item order. -/
def matchingCalls (items : List OutputItem) : List (ArgsJson × String) :=
  items.filterMap (fun it =>
    match it with
    | OutputItem.function_call nm args cid =>
      if nm = "recommend_phone" then some (args, cid) else none
    | OutputItem.other _ _ => none)

/-- Dispatch stated over the matching calls only: one output record per
matching call, in order, carrying that call's call_id. -/
def dispatchSpec (sortFn : List PhoneRecord → List PhoneRecord)
    (df : List PhoneRecord) : List (ArgsJson × String) → Except PyExn (List FunctionCallOutput)
  | [] => Except.ok []
  | p :: ps =>
    match invokeRecommendPhone sortFn df p.1 with
    | Except.error e => Except.error e
    | Except.ok res =>
      match dispatchSpec sortFn df ps with
      | Except.error e => Except.error e
      | Except.ok os => Except.ok (⟨p.2, res⟩ :: os)

/-- The fields of a remote response object that the turn reads: status
(compared with "failed" at line 159), the error payload printed at line
160, the output items scanned at line 165, and output_text printed at
line 190. -/
structure RemoteResponse where
  status : String
  errorMsg : String
  output : List OutputItem
  output_text : String
deriving DecidableEq, Repr

/-- What the turn prints at its end: the error line of line 160, or the
agent line of line 190. -/
inductive TurnDisplay where
  | errorShown : String → TurnDisplay
  | agentText : String → TurnDisplay
deriving DecidableEq, Repr

/-- Outcome of one completed (non-crashing) turn: what was printed, and the
list of resubmission requests sent at line 181 (each carrying the function
outputs it submitted). -/
structure TurnResult where
  display : TurnDisplay
  resubmits : List (List FunctionCallOutput)
deriving DecidableEq, Repr

/-- One user turn, lines 150-190, after the first responses.create call:
resp1 is the first response; resp2 models the remote service producing the
second response from the resubmitted function outputs (line 181).  The
second response's status is never read by the code; only its output_text
is printed. -/
def runTurn (sortFn : List PhoneRecord → List PhoneRecord)
    (df : List PhoneRecord) (resp1 : RemoteResponse)
    (resp2 : List FunctionCallOutput → RemoteResponse) : Except PyExn TurnResult :=
  if resp1.status = "failed" then
    Except.ok ⟨TurnDisplay.errorShown resp1.errorMsg, []⟩
  else
    match dispatchItems sortFn df resp1.output with
    | Except.error e => Except.error e
    | Except.ok outs =>
      if outs.isEmpty then
        Except.ok ⟨TurnDisplay.agentText resp1.output_text, []⟩
      else
        Except.ok ⟨TurnDisplay.agentText (resp2 outs).output_text, [outs]⟩

/-- What the loop head does with one line of user input (lines 139-148):
exit on the quit token, compared lowercased, otherwise forward the text to
the remote agent unchanged. -/
inductive LoopAction where
  | exitLoop : LoopAction
  | forward : String → LoopAction
deriving DecidableEq, Repr

/-- Lines 139-142: `if user_prompt.lower() == "quit": break`. -/
def handleUserInput (user_prompt : String) : LoopAction :=
  if lowerStr user_prompt = "quit" then LoopAction.exitLoop
  else LoopAction.forward user_prompt

/-- File-system effect of one call of recommend_phone (lines 30-33): the
body performs exactly one pd.read_csv of phones.csv and contains no write,
so a call maps the file contents to (number of reads, contents after the
call). -/
def recommendPhoneFileEffect (phonesCsv : List PhoneRecord) : ℕ × List PhoneRecord :=
  (1, phonesCsv)

/-- The argument bundle of one recommend_phone invocation. -/
structure QueryArgs where
  budget : ℚ
  brand : String
  min_storage : ℤ
  min_screen_size : ℚ
deriving DecidableEq, Repr

/-- Total number of pd.read_csv executions a process performs across a list
of recommend_phone invocations (the load at line 33 is inside the function
body, so it runs once per call). -/
def csvReadsOfCalls (phonesCsv : List PhoneRecord) (calls : List QueryArgs) : ℕ :=
  (calls.map (fun _ => (recommendPhoneFileEffect phonesCsv).1)).sum

/-!
Helper lemmas shared by the claim theorems.
-/

theorem sortsByPrice_sortStable : SortsByPrice sortStable :=
  fun l => ⟨List.perm_insertionSort priceLe l, List.sorted_insertionSort priceLe l⟩

theorem sortsByPrice_sortUnstable : SortsByPrice sortUnstable :=
  fun l => ⟨(List.perm_insertionSort priceLe l.reverse).trans l.reverse_perm,
    List.sorted_insertionSort priceLe l.reverse⟩

theorem compilePat_lit (pat : String) (h : ∀ c ∈ pat.data, c ≠ '.') :
    compilePat pat = pat.data.map RTok.lit := by
  unfold compilePat
  exact List.map_congr_left (fun c hc => if_neg (h c hc))

theorem matchToks_map_lit : ∀ (pat s : List Char),
    matchToks (pat.map RTok.lit) s = substrAt pat s
  | [], _ => rfl
  | _ :: _, [] => rfl
  | a :: as, b :: bs => by
    simp [matchToks, substrAt, matchToks_map_lit as bs]

theorem reSearch_map_lit : ∀ (pat s : List Char),
    reSearch (pat.map RTok.lit) s = containsSub pat s
  | pat, [] => by
    simp [reSearch, containsSub, matchToks_map_lit]
  | pat, c :: cs => by
    simp [reSearch, containsSub, matchToks_map_lit, reSearch_map_lit pat cs]

theorem pandasContains_eq_containsSub (el pat : String)
    (h : ∀ c ∈ pat.data, c ≠ '.') :
    pandasContains el pat = containsSub pat.data el.data := by
  unfold pandasContains
  rw [compilePat_lit pat h, reSearch_map_lit]

theorem applyFilters_eq_filter (df : List PhoneRecord) (b : ℚ) (br : String)
    (ms : ℤ) (mss : ℚ) :
    applyFilters df b br ms mss = df.filter (codeKeep b br ms mss) := by
  unfold applyFilters codeKeep
  by_cases h1 : br = "" <;> by_cases h2 : (0:ℤ) < ms <;> by_cases h3 : (0:ℚ) < mss <;>
    simp [h1, h2, h3, List.filter_filter, Bool.and_assoc, Bool.and_comm, Bool.and_left_comm]

theorem codeKeep_eq_specKeep (b : ℚ) (br : String) (ms : ℤ) (mss : ℚ)
    (h : ∀ c ∈ (lowerStr br).data, c ∉ regexMetachars) (r : PhoneRecord) :
    codeKeep b br ms mss r = specKeep b br ms mss r := by
  have h' : ∀ c ∈ (lowerStr br).data, c ≠ '.' := by
    intro c hc he
    exact h c hc (he ▸ (by simp [regexMetachars]))
  unfold codeKeep specKeep
  rw [pandasContains_eq_containsSub _ _ h']

instance {ε α : Type} [DecidableEq ε] [DecidableEq α] : DecidableEq (Except ε α) :=
  fun a b =>
  match a, b with
  | Except.ok x, Except.ok y =>
    if h : x = y then Decidable.isTrue (congrArg Except.ok h)
    else Decidable.isFalse (fun he => h (Except.ok.inj he))
  | Except.error x, Except.error y =>
    if h : x = y then Decidable.isTrue (congrArg Except.error h)
    else Decidable.isFalse (fun he => h (Except.error.inj he))
  | Except.ok _, Except.error _ => Decidable.isFalse (fun he => Except.noConfusion he)
  | Except.error _, Except.ok _ => Decidable.isFalse (fun he => Except.noConfusion he)

/-!
Concrete rows used by witnesses and counterexamples (modelled on the example
table of the specification, section 8).
-/

def pA : PhoneRecord := ⟨"PhoneA", "BrandX", 100, 64, 6⟩

def pB : PhoneRecord := ⟨"PhoneB", "BrandY", 90, 128, 7⟩

def pC : PhoneRecord := ⟨"PhoneC", "BrandX", 90, 32, 5⟩

def pD : PhoneRecord := ⟨"PhoneD", "BrandX", 200, 256, 7⟩

def exTable : List PhoneRecord := [pA, pB, pC, pD]

/-!
Claim theorems.
-/

/-- C1 (counterexample): with query brand "s.m" the filter keeps the record
with brand "Sum" — pandas str.contains treats the brand as a regular
expression, where . matches any character — although "s.m" is not a
substring of "sum", so the claimed case-insensitive-substring conjunction
rejects the record.  The kept set is not the set described by the claim. -/
theorem C1_regex_counterexample :
    applyFilters [⟨"PhoneS", "Sum", 50, 64, 6⟩] 100 "s.m" 0 0 =
      [⟨"PhoneS", "Sum", 50, 64, 6⟩] ∧
    List.filter (specKeep 100 "s.m" 0 0) [⟨"PhoneS", "Sum", 50, 64, 6⟩] = [] := by
  decide

/-- C1 (amended): for every query whose lowercased brand contains no regex
metacharacter, the filter keeps exactly the records satisfying the claimed
conjunction — price ≤ budget, and, if brand is non-empty, the record brand
contains the query brand as a case-insensitive substring, and the storage
and screen-size lower bounds when positive.  (In general the code matches
the lowercased brand as a regular expression, pandas str.contains with its
default regex=True.) -/
theorem C1_filter_conjunction (df : List PhoneRecord) (b : ℚ) (br : String)
    (ms : ℤ) (mss : ℚ) (h : ∀ c ∈ (lowerStr br).data, c ∉ regexMetachars) :
    applyFilters df b br ms mss = df.filter (specKeep b br ms mss) := by
  rw [applyFilters_eq_filter]
  exact List.filter_congr (fun r _ => codeKeep_eq_specKeep b br ms mss h r)

/-- Witness for C1 at the spec's own example: brand "sam" against records
branded "Samsung", "SAMSUNG", "Samsung Galaxy" and one non-match. -/
theorem C1_filter_conjunction_witness :
    (∀ c ∈ (lowerStr "sam").data, c ∉ regexMetachars) ∧
    applyFilters
      [⟨"G1", "Samsung", 100, 64, 6⟩, ⟨"G2", "SAMSUNG", 90, 64, 6⟩,
       ⟨"G3", "Samsung Galaxy", 80, 64, 6⟩, ⟨"G4", "Pixel", 70, 64, 6⟩]
      100 "sam" 0 0 =
    List.filter (specKeep 100 "sam" 0 0)
      [⟨"G1", "Samsung", 100, 64, 6⟩, ⟨"G2", "SAMSUNG", 90, 64, 6⟩,
       ⟨"G3", "Samsung Galaxy", 80, 64, 6⟩, ⟨"G4", "Pixel", 70, 64, 6⟩] :=
  ⟨by decide, C1_filter_conjunction _ 100 "sam" 0 0 (by decide)⟩

/-- C2: line 55 sorts with pandas sort_values and the default
kind="quicksort", which pandas does not document as stable, so the code only
guarantees a price-sorted permutation.  This theorem exhibits a behaviour
satisfying that guarantee (sortUnstable) under which two equal-price records
come back in the opposite of their table order: the stability half of the
claim is not ensured by the code, although its sortedness half is. -/
theorem C2_unstable_sort_exhibit :
    SortsByPrice sortUnstable ∧
    recommend_phone sortUnstable [pB, pC] 100 "" 0 0 =
      RecommendationResult.recommendations [pC, pB] ∧
    pB.price = pC.price :=
  ⟨sortsByPrice_sortUnstable, by decide, by decide⟩

/-- C3: the recommendations list is the first 3 records of the price-sorted
filtered set, hence has size at most 3; and for a budget-only query every
returned record costs at most the budget, and any qualifying record left out
costs at least as much as every returned record (truncation drops only the
most expensive tail).  Holds for every sort behaviour within the sort_values
contract. -/
theorem C3_truncation (s : List PhoneRecord → List PhoneRecord)
    (hs : SortsByPrice s) (df : List PhoneRecord) (B : ℚ) :
    (∀ br ms mss l, recommend_phone s df B br ms mss =
        RecommendationResult.recommendations l →
      l = (s (applyFilters df B br ms mss)).take 3 ∧ l.length ≤ 3) ∧
    (∀ l, recommend_phone s df B "" 0 0 =
        RecommendationResult.recommendations l →
      (∀ r ∈ l, r.price ≤ B) ∧
      (∀ r' ∈ df, r'.price ≤ B → r' ∉ l → ∀ r ∈ l, r.price ≤ r'.price)) := by
  have key : ∀ br ms mss l, recommend_phone s df B br ms mss =
      RecommendationResult.recommendations l →
      l = (s (applyFilters df B br ms mss)).take 3 := by
    intro br ms mss l hl
    unfold recommend_phone at hl
    by_cases hE : (applyFilters df B br ms mss).isEmpty
    · rw [if_pos hE] at hl
      exact absurd hl (by simp)
    · rw [if_neg hE] at hl
      exact (RecommendationResult.recommendations.inj hl).symm
  have hF : applyFilters df B "" 0 0 =
      df.filter (fun r => decide (r.price ≤ B)) := by
    rw [applyFilters_eq_filter]
    exact List.filter_congr (fun r _ => by simp [codeKeep])
  constructor
  · intro br ms mss l hl
    refine ⟨key br ms mss l hl, ?_⟩
    rw [key br ms mss l hl, List.length_take]
    exact min_le_left _ _
  · intro l hl
    have hl3 : l = (s (applyFilters df B "" 0 0)).take 3 := key "" 0 0 l hl
    have hperm := (hs (applyFilters df B "" 0 0)).1
    have hsorted := (hs (applyFilters df B "" 0 0)).2
    constructor
    · intro r hr
      have hr1 : r ∈ s (applyFilters df B "" 0 0) :=
        List.mem_of_mem_take (hl3 ▸ hr)
      have hr2 : r ∈ applyFilters df B "" 0 0 := hperm.mem_iff.mp hr1
      rw [hF] at hr2
      simpa using (List.mem_filter.mp hr2).2
    · intro r' hr' hle hnot r hr
      have hr'F : r' ∈ applyFilters df B "" 0 0 := by
        rw [hF]
        exact List.mem_filter.mpr ⟨hr', by simpa using hle⟩
      have hr'S : r' ∈ s (applyFilters df B "" 0 0) := hperm.mem_iff.mpr hr'F
      have hsplit := List.take_append_drop 3 (s (applyFilters df B "" 0 0))
      have hr'drop : r' ∈ (s (applyFilters df B "" 0 0)).drop 3 := by
        rcases List.mem_append.mp (hsplit ▸ hr'S) with h1 | h2
        · exact absurd (hl3 ▸ h1) hnot
        · exact h2
      have hpw : List.Pairwise priceLe
          ((s (applyFilters df B "" 0 0)).take 3 ++
           (s (applyFilters df B "" 0 0)).drop 3) := by
        rw [hsplit]
        exact hsorted
      exact (List.pairwise_append.mp hpw).2.2 r (hl3 ▸ hr) r' hr'drop

/-- Witness for C3: the stable insertion sort satisfies the sort_values
contract, and on the spec's example table with budget 100 the returned list
is exactly the first three of the sorted filtered set. -/
theorem C3_truncation_witness :
    SortsByPrice sortStable ∧
    ([pB, pC, pA] = (sortStable (applyFilters exTable 100 "" 0 0)).take 3 ∧
     ([pB, pC, pA] : List PhoneRecord).length ≤ 3) :=
  ⟨sortsByPrice_sortStable,
   (C3_truncation sortStable sortsByPrice_sortStable exTable 100).1
     "" 0 0 [pB, pC, pA] (by decide)⟩

/-- C4: the filtered set is empty exactly when recommend_phone returns the
no-match message variant; and whenever it returns the recommendations
variant, the filtered set was non-empty and the returned list is non-empty
(never an empty recommendations list). -/
theorem C4_empty_result (s : List PhoneRecord → List PhoneRecord)
    (hs : SortsByPrice s) (df : List PhoneRecord) (b : ℚ) (br : String)
    (ms : ℤ) (mss : ℚ) :
    (applyFilters df b br ms mss = [] ↔
      recommend_phone s df b br ms mss =
        RecommendationResult.message noMatchMessage) ∧
    (∀ l, recommend_phone s df b br ms mss =
        RecommendationResult.recommendations l →
      applyFilters df b br ms mss ≠ [] ∧ l ≠ []) := by
  unfold recommend_phone
  by_cases hE : (applyFilters df b br ms mss).isEmpty
  · rw [if_pos hE]
    refine ⟨⟨fun _ => rfl, fun _ => List.isEmpty_iff.mp hE⟩, ?_⟩
    intro l hl
    exact absurd hl (by simp [noMatchMessage])
  · rw [if_neg hE]
    have hne : applyFilters df b br ms mss ≠ [] :=
      fun h => hE (List.isEmpty_iff.mpr h)
    refine ⟨⟨fun h => absurd h hne, fun h => absurd h (by simp)⟩, ?_⟩
    intro l hl
    refine ⟨hne, ?_⟩
    have hlen : (s (applyFilters df b br ms mss)).length =
        (applyFilters df b br ms mss).length :=
      (hs (applyFilters df b br ms mss)).1.length_eq
    have hpos : 0 < (s (applyFilters df b br ms mss)).length := by
      rw [hlen]
      exact List.length_pos.mpr hne
    have hl' : l = (s (applyFilters df b br ms mss)).take 3 :=
      (RecommendationResult.recommendations.inj hl).symm
    apply List.length_pos.mp
    rw [hl', List.length_take]
    exact lt_min (by norm_num) hpos

/-- Witness for C4: on the example table with budget 50 nothing qualifies
and the no-match message variant is returned. -/
theorem C4_empty_result_witness :
    SortsByPrice sortStable ∧
    (applyFilters exTable 50 "" 0 0 = [] ↔
      recommend_phone sortStable exTable 50 "" 0 0 =
        RecommendationResult.message noMatchMessage) :=
  ⟨sortsByPrice_sortStable,
   (C4_empty_result sortStable sortsByPrice_sortStable exTable 50 "" 0 0).1⟩

/-- Dispatch propagates a raised exception of any listed item: with no
try/except in the loop of lines 164-177, one failing item aborts the whole
scan. -/
theorem dispatchItems_error_of_mem (s : List PhoneRecord → List PhoneRecord)
    (df : List PhoneRecord) (it : OutputItem) (e : PyExn)
    (he : dispatchItem s df it = Except.error e) :
    ∀ items : List OutputItem, it ∈ items →
      ∃ e', dispatchItems s df items = Except.error e'
  | [], hmem => absurd hmem (List.not_mem_nil it)
  | x :: rest, hmem => by
    unfold dispatchItems
    rcases List.mem_cons.mp hmem with hx | hrest
    · rw [← hx, he]
      exact ⟨e, rfl⟩
    · match hd : dispatchItem s df x with
      | Except.error e₀ => exact ⟨e₀, rfl⟩
      | Except.ok none =>
        exact dispatchItems_error_of_mem s df it e he rest hrest
      | Except.ok (some o) =>
        rcases dispatchItems_error_of_mem s df it e he rest hrest with ⟨e', he'⟩
        rw [he']
        exact ⟨e', rfl⟩

/-- Argument bundles on which line 169 raises: JSON that json.loads cannot
decode, or a budget field that is a JSON string (the pandas comparison of
line 36 then raises TypeError). -/
def malformedArgs : ArgsJson → Bool
  | ArgsJson.invalid => true
  | ArgsJson.strArgs _ _ _ _ => true
  | ArgsJson.numArgs _ _ _ _ => false

/-- C5 (counterexample): a first response carrying a recommend_phone call
with undecodable arguments makes the turn raise json.JSONDecodeError at
line 169; the exception is caught nowhere in main, so it terminates the
process — no error is reported to the remote caller for that turn. -/
theorem C5_crash_counterexample :
    runTurn sortStable exTable
      ⟨"completed", "",
       [OutputItem.function_call "recommend_phone" ArgsJson.invalid "call_1"],
       "t1"⟩
      (fun _ => ⟨"completed", "", [], "t2"⟩) =
    Except.error PyExn.jsonDecodeError := by
  decide

/-- C5 (amended): a function-call request for recommend_phone with
malformed arguments (undecodable JSON, or a string budget) never invokes
the filter with a substituted default — the invocation step itself raises —
and the raised exception propagates out of the turn uncaught, crashing the
process instead of being reported for that turn. -/
theorem C5_malformed_raises (s : List PhoneRecord → List PhoneRecord)
    (df : List PhoneRecord) (resp1 : RemoteResponse)
    (resp2 : List FunctionCallOutput → RemoteResponse)
    (args : ArgsJson) (cid : String)
    (hstatus : resp1.status ≠ "failed")
    (hmem : OutputItem.function_call "recommend_phone" args cid ∈ resp1.output)
    (hargs : malformedArgs args = true) :
    (invokeRecommendPhone s df args).isOk = false ∧
    (runTurn s df resp1 resp2).isOk = false := by
  have hinv : ∃ e, invokeRecommendPhone s df args = Except.error e := by
    match args, hargs with
    | ArgsJson.invalid, _ => exact ⟨PyExn.jsonDecodeError, rfl⟩
    | ArgsJson.strArgs _ _ _ _, _ => exact ⟨PyExn.typeError, rfl⟩
  rcases hinv with ⟨e, he⟩
  have hitem : dispatchItem s df
      (OutputItem.function_call "recommend_phone" args cid) = Except.error e := by
    simp [dispatchItem, he]
  rcases dispatchItems_error_of_mem s df _ e hitem resp1.output hmem with ⟨e', he'⟩
  constructor
  · rw [he]
    rfl
  · unfold runTurn
    rw [if_neg hstatus, he']
    rfl

/-- Witness for C5: the concrete crashing turn of the counterexample input,
with a string-budget call as well. -/
theorem C5_malformed_raises_witness :
    (⟨"completed", "",
      [OutputItem.function_call "recommend_phone"
        (ArgsJson.strArgs "cheap" "" 0 0) "call_1"], "t1"⟩ :
        RemoteResponse).status ≠ "failed" ∧
    (invokeRecommendPhone sortStable exTable
      (ArgsJson.strArgs "cheap" "" 0 0)).isOk = false ∧
    (runTurn sortStable exTable
      ⟨"completed", "",
       [OutputItem.function_call "recommend_phone"
         (ArgsJson.strArgs "cheap" "" 0 0) "call_1"], "t1"⟩
      (fun _ => ⟨"completed", "", [], "t2"⟩)).isOk = false :=
  ⟨by decide,
   C5_malformed_raises sortStable exTable _ _
     (ArgsJson.strArgs "cheap" "" 0 0) "call_1"
     (by decide) (List.mem_singleton.mpr rfl) (by decide)⟩

/-- C6 (counterexample): the CSV load of line 33 is inside the body of
recommend_phone, so a process whose turns invoke the function twice reads
phones.csv twice — the table is not loaded once per process start. -/
theorem C6_reload_counterexample :
    csvReadsOfCalls exTable [⟨100, "", 0, 0⟩, ⟨60, "", 0, 0⟩] = 2 ∧
    ¬ csvReadsOfCalls exTable [⟨100, "", 0, 0⟩, ⟨60, "", 0, 0⟩] = 1 := by
  decide

/-- C6 (amended): phones.csv is re-read on every invocation of
recommend_phone — one read per call, so a process performing the given
calls reads it once per call — the file contents are never mutated by a
call, and recommend_phone is deterministic over the loaded table: equal
arguments against equal file contents give equal results. -/
theorem C6_per_call_load (csv : List PhoneRecord) (calls : List QueryArgs)
    (s : List PhoneRecord → List PhoneRecord) (b b' : ℚ) (br br' : String)
    (ms ms' : ℤ) (mss mss' : ℚ)
    (hb : b = b') (hbr : br = br') (hms : ms = ms') (hmss : mss = mss') :
    csvReadsOfCalls csv calls = calls.length ∧
    (recommendPhoneFileEffect csv).2 = csv ∧
    recommend_phone s csv b br ms mss = recommend_phone s csv b' br' ms' mss' := by
  refine ⟨?_, rfl, by rw [hb, hbr, hms, hmss]⟩
  unfold csvReadsOfCalls recommendPhoneFileEffect
  induction calls with
  | nil => rfl
  | cons c cs ih =>
    simp only [List.map_cons, List.sum_cons, List.length_cons] at ih ⊢
    omega

/-- Witness for C6: two equal-argument invocations over the example table. -/
theorem C6_per_call_load_witness :
    csvReadsOfCalls exTable [⟨100, "", 0, 0⟩] = 1 ∧
    (recommendPhoneFileEffect exTable).2 = exTable ∧
    recommend_phone sortStable exTable 100 "" 0 0 =
      recommend_phone sortStable exTable 100 "" 0 0 :=
  C6_per_call_load exTable [⟨100, "", 0, 0⟩] sortStable 100 100 "" "" 0 0 0 0
    rfl rfl rfl rfl

/-- C7 (counterexample): a turn whose first response succeeds and requests
one recommend_phone call, but whose resubmission response has status
"failed" with error "boom", completes printing that response's output_text
as a normal agent reply — the failure of the second response is never
checked, so it is not surfaced and the turn is not abandoned. -/
theorem C7_second_stage_counterexample :
    runTurn sortStable exTable
      ⟨"completed", "",
       [OutputItem.function_call "recommend_phone"
         (ArgsJson.numArgs 100 "" 0 0) "c1"], "t1"⟩
      (fun _ => ⟨"failed", "boom", [], "t2"⟩) =
    Except.ok ⟨TurnDisplay.agentText "t2",
      [[⟨"c1", RecommendationResult.recommendations [pB, pC, pA]⟩]]⟩ ∧
    TurnDisplay.agentText "t2" ≠ TurnDisplay.errorShown "boom" := by
  decide

/-- C7 (amended): only the first response's status is checked (line 159): a
failed first response abandons the turn, surfaces the error payload, sends
nothing further and does not crash; but once function outputs are
resubmitted, the turn prints the second response's output_text whatever its
status — a failure status on the second response is not surfaced. -/
theorem C7_failure_handling (s : List PhoneRecord → List PhoneRecord)
    (df : List PhoneRecord) (resp1 : RemoteResponse)
    (resp2 : List FunctionCallOutput → RemoteResponse) :
    (resp1.status = "failed" →
      runTurn s df resp1 resp2 =
        Except.ok ⟨TurnDisplay.errorShown resp1.errorMsg, []⟩) ∧
    (∀ outs, resp1.status ≠ "failed" →
      dispatchItems s df resp1.output = Except.ok outs → outs ≠ [] →
      runTurn s df resp1 resp2 =
        Except.ok ⟨TurnDisplay.agentText (resp2 outs).output_text, [outs]⟩) := by
  constructor
  · intro h
    unfold runTurn
    rw [if_pos h]
  · intro outs h hd hne
    unfold runTurn
    rw [if_neg h, hd]
    have : outs.isEmpty = false := by
      cases outs with
      | nil => exact absurd rfl hne
      | cons a as => rfl
    simp [this]

/-- Witness for C7: a concrete failed first response is surfaced and the
loop-continuing outcome is returned; a concrete successful dispatch prints
the second response's text. -/
theorem C7_failure_handling_witness :
    runTurn sortStable exTable ⟨"failed", "boom", [], "t1"⟩
      (fun _ => ⟨"completed", "", [], "t2"⟩) =
    Except.ok ⟨TurnDisplay.errorShown "boom", []⟩ :=
  (C7_failure_handling sortStable exTable ⟨"failed", "boom", [], "t1"⟩
    (fun _ => ⟨"completed", "", [], "t2"⟩)).1 rfl

/-- Equation of runTurn when the first response failed (lines 158-161). -/
theorem runTurn_failed (s : List PhoneRecord → List PhoneRecord)
    (df : List PhoneRecord) (resp1 : RemoteResponse)
    (resp2 : List FunctionCallOutput → RemoteResponse)
    (h : resp1.status = "failed") :
    runTurn s df resp1 resp2 =
      Except.ok ⟨TurnDisplay.errorShown resp1.errorMsg, []⟩ := by
  unfold runTurn
  rw [if_pos h]

/-- Equation of runTurn when dispatch raises: the exception escapes. -/
theorem runTurn_error (s : List PhoneRecord → List PhoneRecord)
    (df : List PhoneRecord) (resp1 : RemoteResponse)
    (resp2 : List FunctionCallOutput → RemoteResponse) (e : PyExn)
    (h : resp1.status ≠ "failed")
    (hd : dispatchItems s df resp1.output = Except.error e) :
    runTurn s df resp1 resp2 = Except.error e := by
  unfold runTurn
  rw [if_neg h, hd]

/-- Equation of runTurn when no function output was produced: the first
response's text is printed, nothing is resubmitted. -/
theorem runTurn_no_outputs (s : List PhoneRecord → List PhoneRecord)
    (df : List PhoneRecord) (resp1 : RemoteResponse)
    (resp2 : List FunctionCallOutput → RemoteResponse)
    (outs : List FunctionCallOutput)
    (h : resp1.status ≠ "failed")
    (hd : dispatchItems s df resp1.output = Except.ok outs)
    (hE : outs.isEmpty = true) :
    runTurn s df resp1 resp2 =
      Except.ok ⟨TurnDisplay.agentText resp1.output_text, []⟩ := by
  unfold runTurn
  rw [if_neg h, hd]
  simp [hE]

/-- Equation of runTurn when function outputs were produced: one
resubmission, then the second response's text is printed. -/
theorem runTurn_resubmit (s : List PhoneRecord → List PhoneRecord)
    (df : List PhoneRecord) (resp1 : RemoteResponse)
    (resp2 : List FunctionCallOutput → RemoteResponse)
    (outs : List FunctionCallOutput)
    (h : resp1.status ≠ "failed")
    (hd : dispatchItems s df resp1.output = Except.ok outs)
    (hE : outs.isEmpty = false) :
    runTurn s df resp1 resp2 =
      Except.ok ⟨TurnDisplay.agentText (resp2 outs).output_text, [outs]⟩ := by
  unfold runTurn
  rw [if_neg h, hd]
  simp [hE]

/-- C8: a completed turn sends at most one resubmission; when one was sent,
what is displayed is that resubmission response's output_text; and the turn
outcome depends on the second response only through its output_text — its
output items (in particular any chained function-call requests) are never
dispatched. -/
theorem C8_single_resubmission (s : List PhoneRecord → List PhoneRecord)
    (df : List PhoneRecord) (resp1 : RemoteResponse)
    (resp2 : List FunctionCallOutput → RemoteResponse) :
    (∀ r, runTurn s df resp1 resp2 = Except.ok r → r.resubmits.length ≤ 1) ∧
    (∀ r outs, runTurn s df resp1 resp2 = Except.ok r → r.resubmits = [outs] →
      r.display = TurnDisplay.agentText (resp2 outs).output_text) ∧
    (∀ resp2' : List FunctionCallOutput → RemoteResponse,
      (∀ outs, (resp2 outs).output_text = (resp2' outs).output_text) →
      runTurn s df resp1 resp2 = runTurn s df resp1 resp2') := by
  by_cases h1 : resp1.status = "failed"
  · refine ⟨?_, ?_, ?_⟩
    · intro r hr
      rw [runTurn_failed s df resp1 resp2 h1] at hr
      cases Except.ok.inj hr
      exact Nat.zero_le 1
    · intro r outs hr hout
      rw [runTurn_failed s df resp1 resp2 h1] at hr
      cases Except.ok.inj hr
      exact absurd hout (by simp)
    · intro resp2' _
      rw [runTurn_failed s df resp1 resp2 h1, runTurn_failed s df resp1 resp2' h1]
  · match hd : dispatchItems s df resp1.output with
    | Except.error e =>
      refine ⟨?_, ?_, ?_⟩
      · intro r hr
        rw [runTurn_error s df resp1 resp2 e h1 hd] at hr
        exact absurd hr (by simp)
      · intro r outs hr hout
        rw [runTurn_error s df resp1 resp2 e h1 hd] at hr
        exact absurd hr (by simp)
      · intro resp2' _
        rw [runTurn_error s df resp1 resp2 e h1 hd,
          runTurn_error s df resp1 resp2' e h1 hd]
    | Except.ok outs =>
      by_cases hE : outs.isEmpty
      · refine ⟨?_, ?_, ?_⟩
        · intro r hr
          rw [runTurn_no_outputs s df resp1 resp2 outs h1 hd hE] at hr
          cases Except.ok.inj hr
          exact Nat.zero_le 1
        · intro r outs' hr hout
          rw [runTurn_no_outputs s df resp1 resp2 outs h1 hd hE] at hr
          cases Except.ok.inj hr
          exact absurd hout (by simp)
        · intro resp2' _
          rw [runTurn_no_outputs s df resp1 resp2 outs h1 hd hE,
            runTurn_no_outputs s df resp1 resp2' outs h1 hd hE]
      · have hE' : outs.isEmpty = false := by simpa using hE
        refine ⟨?_, ?_, ?_⟩
        · intro r hr
          rw [runTurn_resubmit s df resp1 resp2 outs h1 hd hE'] at hr
          cases Except.ok.inj hr
          exact le_refl 1
        · intro r outs' hr hout
          rw [runTurn_resubmit s df resp1 resp2 outs h1 hd hE'] at hr
          cases Except.ok.inj hr
          have houts : outs = outs' := by simpa using hout
          rw [← houts]
        · intro resp2' hsame
          rw [runTurn_resubmit s df resp1 resp2 outs h1 hd hE',
            runTurn_resubmit s df resp1 resp2' outs h1 hd hE', hsame outs]

/-- Witness for C8 at a concrete dispatching turn. -/
theorem C8_single_resubmission_witness :
    (⟨TurnDisplay.agentText "t2",
      [[⟨"c1", RecommendationResult.recommendations [pB, pC, pA]⟩]]⟩ :
        TurnResult).resubmits.length ≤ 1 :=
  (C8_single_resubmission sortStable exTable
    ⟨"completed", "",
     [OutputItem.function_call "recommend_phone"
       (ArgsJson.numArgs 100 "" 0 0) "c1"], "t1"⟩
    (fun _ => ⟨"failed", "boom", [], "t2"⟩)).1 _ (by decide)

/-- C9: the quit token is matched after lowercasing the user input — any
input whose lowercased form is "quit" exits the loop without being
forwarded to the remote agent, and every other input is forwarded
verbatim. -/
theorem C9_quit_token (s : String) :
    (lowerStr s = "quit" → handleUserInput s = LoopAction.exitLoop) ∧
    (lowerStr s ≠ "quit" → handleUserInput s = LoopAction.forward s) :=
  ⟨fun h => by simp [handleUserInput, h], fun h => by simp [handleUserInput, h]⟩

/-- Witness for C9: "QUIT" and "Quit" exit, "hello" is forwarded. -/
theorem C9_quit_token_witness :
    handleUserInput "QUIT" = LoopAction.exitLoop ∧
    handleUserInput "Quit" = LoopAction.exitLoop ∧
    handleUserInput "hello" = LoopAction.forward "hello" :=
  ⟨(C9_quit_token "QUIT").1 (by decide),
   (C9_quit_token "Quit").1 (by decide),
   (C9_quit_token "hello").2 (by decide)⟩

/-- C10: scanning a response's output items produces exactly one
function-call output record per item of type function_call named
recommend_phone, in item order and carrying that item's call_id, and
silently skips every other item (no local invocation, no record); and a
completed turn sends the resubmission exactly when at least one record was
produced. -/
theorem C10_dispatch_exact (s : List PhoneRecord → List PhoneRecord)
    (df : List PhoneRecord) :
    (∀ items, dispatchItems s df items = dispatchSpec s df (matchingCalls items)) ∧
    (∀ ps outs, dispatchSpec s df ps = Except.ok outs →
      outs.length = ps.length ∧
      outs.map FunctionCallOutput.call_id = ps.map Prod.snd) ∧
    (∀ resp1 resp2 r outs, resp1.status ≠ "failed" →
      dispatchItems s df resp1.output = Except.ok outs →
      runTurn s df resp1 resp2 = Except.ok r →
      (r.resubmits ≠ [] ↔ outs ≠ [])) := by
  refine ⟨?_, ?_, ?_⟩
  · intro items
    induction items with
    | nil => rfl
    | cons it rest ih =>
      cases it with
      | other ty content =>
        simp [dispatchItems, dispatchItem, matchingCalls, List.filterMap_cons] at ih ⊢
        exact ih
      | function_call nm args cid =>
        by_cases hnm : nm = "recommend_phone"
        · subst hnm
          match hinv : invokeRecommendPhone s df args with
          | Except.error e =>
            simp [dispatchItems, dispatchItem, matchingCalls,
              List.filterMap_cons, dispatchSpec, hinv]
          | Except.ok res =>
            simp [dispatchItems, dispatchItem, matchingCalls,
              List.filterMap_cons, dispatchSpec, hinv, ih]
        · simp [dispatchItems, dispatchItem, matchingCalls,
            List.filterMap_cons, hnm] at ih ⊢
          exact ih
  · intro ps
    induction ps with
    | nil =>
      intro outs h
      cases Except.ok.inj h
      exact ⟨rfl, rfl⟩
    | cons p ps ih =>
      intro outs h
      unfold dispatchSpec at h
      match hinv : invokeRecommendPhone s df p.1 with
      | Except.error e =>
        rw [hinv] at h
        exact absurd h (by simp)
      | Except.ok res =>
        rw [hinv] at h
        match hrec : dispatchSpec s df ps with
        | Except.error e =>
          rw [hrec] at h
          exact absurd h (by simp)
        | Except.ok os =>
          rw [hrec] at h
          cases Except.ok.inj h
          obtain ⟨h1, h2⟩ := ih os hrec
          simp [h1, h2]
  · intro resp1 resp2 r outs h1 hd hr
    by_cases hout : outs = []
    · subst hout
      rw [runTurn_no_outputs s df resp1 resp2 [] h1 hd rfl] at hr
      cases Except.ok.inj hr
      simp
    · have hE : outs.isEmpty = false := by
        cases outs with
        | nil => exact absurd rfl hout
        | cons a as => rfl
      rw [runTurn_resubmit s df resp1 resp2 outs h1 hd hE] at hr
      cases Except.ok.inj hr
      simp [hout]

/-- Witness for C10: a mixed item list — a plain message, a function call
for a different tool, and a recommend_phone call — dispatches to exactly
the record of the recommend_phone call. -/
theorem C10_dispatch_exact_witness :
    dispatchItems sortStable exTable
      [OutputItem.other "message" "hi",
       OutputItem.function_call "other_tool" (ArgsJson.numArgs 1 "" 0 0) "c0",
       OutputItem.function_call "recommend_phone"
         (ArgsJson.numArgs 100 "" 0 0) "c1"] =
    dispatchSpec sortStable exTable (matchingCalls
      [OutputItem.other "message" "hi",
       OutputItem.function_call "other_tool" (ArgsJson.numArgs 1 "" 0 0) "c0",
       OutputItem.function_call "recommend_phone"
         (ArgsJson.numArgs 100 "" 0 0) "c1"]) ∧
    (([⟨"c1", RecommendationResult.recommendations [pB, pC, pA]⟩] :
        List FunctionCallOutput).length =
      ([(ArgsJson.numArgs 100 "" 0 0, "c1")] : List (ArgsJson × String)).length ∧
     ([⟨"c1", RecommendationResult.recommendations [pB, pC, pA]⟩] :
        List FunctionCallOutput).map FunctionCallOutput.call_id =
      ([(ArgsJson.numArgs 100 "" 0 0, "c1")] :
        List (ArgsJson × String)).map Prod.snd) :=
  ⟨(C10_dispatch_exact sortStable exTable).1 _,
   (C10_dispatch_exact sortStable exTable).2.1
     [(ArgsJson.numArgs 100 "" 0 0, "c1")]
     [⟨"c1", RecommendationResult.recommendations [pB, pC, pA]⟩] (by decide)⟩
